import Mathlib

/-!
# Verification of the GraphQL request client (labdigital-evolve/graphql-client)

Shallow embedding of the request execution strategy engine:
`src/lib/helpers.ts` (pruneObject, isPersistedQueryNotFoundError),
`src/lib/operation.ts` (createOperation, getPersistedQueryExtension,
createUrl, createRequestBody), `src/lib/document.ts` (getDocumentType,
modelled from its copy in the repository), `src/lib/request.ts`
(both revisions present in the repository: the `executeRequest` revision
and the `standardPost` / `mutationPost` / `apqQuery` / `apqPostFallback`
strategy revision), and `src/server.ts` (strategy dispatch and response
processing of `createServerClient.fetch`).

Modelling conventions:
* JSON-like runtime values are the inductive `Json`; JavaScript object
  fields are association lists in insertion order (JS objects cannot hold
  duplicate keys; property lookup is `List.lookup`, first occurrence).
* A payload object whose properties may be `undefined` is a
  `List (String × Option Json)`; `none` is JS `undefined`.
* `JSON.stringify` of an object emits exactly its keys in order, so the
  serialized POST body is modelled as the pruned field list itself, and
  "the body contains key k" is key membership in that list.
* The SHA-256 hex digest comes from `node:crypto`, external to the
  repository; the model is parameterized by an arbitrary `hashHex`
  function, as every claim is independent of the digest's value.
* The transport (`fetch`) is an oracle `net : Request → Except Unit
  HttpResponse`; `Except.error ()` is a thrown transport error, and a
  response that is not JSON has `jsonBody = Except.error ()`.
* A function that can throw a JavaScript `TypeError` is modelled in
  `Except Unit`; `Except.error ()` is the thrown exception.
-/

/-- JSON-like JavaScript runtime values (the possible results of
`await response.json()` and the values stored in payload fields). -/
inductive Json where
  | null : Json
  | bool : Bool → Json
  | num : Int → Json
  | str : String → Json
  | arr : List Json → Json
  | obj : List (String × Json) → Json

/-- JavaScript truthiness of a JSON value (`value &&` in `objectIsNotEmpty`
and the `if (operation.documentId)` / `if (extensions)` guards).
The empty string and the number 0 are falsy; every array or object is
truthy. -/
def jsTruthy : Json → Bool
  | Json.null => false
  | Json.bool b => b
  | Json.num n => n != 0
  | Json.str s => s.length != 0
  | Json.arr _ => true
  | Json.obj _ => true

/-- `Object.keys(value).length`: own enumerable properties. Objects give
their field count, arrays their length, strings their length; primitives
have no own enumerable properties. -/
def jsKeysLength : Json → Nat
  | Json.obj fields => fields.length
  | Json.arr xs => xs.length
  | Json.str s => s.length
  | _ => 0

/-- `objectIsNotEmpty` from `src/lib/helpers.ts`:
`value && Object.keys(value).length > 0`, applied to a possibly-`undefined`
property value. -/
def objectIsNotEmpty : Option Json → Bool
  | some v => jsTruthy v && (jsKeysLength v != 0)
  | none => false

/-- `pruneObject` from `src/lib/helpers.ts`: keeps exactly the fields whose
value passes `objectIsNotEmpty`. The trailing
`JSON.parse(JSON.stringify(data))` round-trip is the identity on the kept
fields (none is `undefined` and `data` is never `null`). -/
def pruneObject (object : List (String × Option Json)) : List (String × Json) :=
  object.filterMap fun kv =>
    match kv.2 with
    | some v => if jsTruthy v && (jsKeysLength v != 0) then some (kv.1, v) else none
    | none => none

/-- `createRequestBody` from `src/lib/operation.ts`:
`JSON.stringify(pruneObject(payload))`. The result is modelled as the
field list of the serialized object. -/
def createRequestBody (payload : List (String × Option Json)) : List (String × Json) :=
  pruneObject payload

/-- Whether a serialized object contains a key. -/
def hasKey (fields : List (String × Json)) (k : String) : Bool :=
  fields.any fun kv => kv.1 == k

/-- The GraphQL operation value built by `createOperation`
(`src/lib/operation.ts`). `documentId` is `none` when the generator
returned `undefined`. `variables` is `none` when absent. -/
structure Operation where
  operationName : String
  document : String
  documentId : Option String
  /-- the source field is named `variables`, a reserved word in Lean -/
  vars : Option Json

/-- JS truthiness of `operation.documentId` (string: non-empty). -/
def hasDocumentId (op : Operation) : Bool :=
  match op.documentId with
  | some s => s.length != 0
  | none => false

/-- One step of the regular expression
`(?:query|mutation|subscription)\s+([A-Za-z0-9_]+)` at a fixed position:
if one of the three keywords matches here (their first letters differ, so
at most one alternative can match at a given position), followed by at
least one whitespace character, the maximal nonempty run of word
characters after the whitespace is the captured name. -/
def matchNameAfterKeyword (cs : List Char) : Option String :=
  let rest :=
    if "query".data.isPrefixOf cs then some (cs.drop 5)
    else if "mutation".data.isPrefixOf cs then some (cs.drop 8)
    else if "subscription".data.isPrefixOf cs then some (cs.drop 12)
    else none
  match rest with
  | none => none
  | some r =>
    let afterWs := r.dropWhile Char.isWhitespace
    if r.length == afterWs.length then none  -- \s+ needs at least one
    else
      let ident := afterWs.takeWhile fun c =>
        c.isAlpha || c.isDigit || c == '_'
      if ident.isEmpty then none else some (String.mk ident)

/-- Leftmost match of the operation-name regular expression. -/
def firstOperationNameMatch : List Char → Option String
  | [] => none
  | c :: cs =>
    match matchNameAfterKeyword (c :: cs) with
    | some n => some n
    | none => firstOperationNameMatch cs

/-- `extractOperationName` from `src/lib/operation.ts`: first regex match
or the fixed fallback label. -/
def extractOperationName (document : String) : String :=
  (firstOperationNameMatch document.data).getD "(GraphQL)"

/-- `createOperation` from `src/lib/operation.ts`. -/
def createOperation (document : String) (documentId : Option String)
    (vars : Option Json) : Operation :=
  ⟨extractOperationName document, document, documentId, vars⟩

/-- `getPersistedQueryExtension` from `src/lib/operation.ts`, with the
SHA-256 hex digest (`node:crypto`, external) supplied as `hashHex`. -/
def getPersistedQueryExtension (hashHex : String → String) (document : String) : Json :=
  Json.obj [("persistedQuery", Json.obj
    [("version", Json.num 1), ("sha256Hash", Json.str (hashHex document))])]

/-- `createUrl` from `src/lib/operation.ts`: search parameters in insertion
order (`op` always; `documentId` if truthy; `variables` if non-empty;
`extensions` if supplied). Parameter values are kept structured; the JS
code stores `JSON.stringify` of the `variables` / `extensions` values. -/
def createUrl (op : Operation) (extensions : Option Json) : List (String × Json) :=
  [("op", Json.str op.operationName)]
  ++ (match op.documentId with
      | some s => if s.length != 0 then [("documentId", Json.str s)] else []
      | none => [])
  ++ (match op.vars with
      | some v => if jsTruthy v && (jsKeysLength v != 0) then [("variables", v)] else []
      | none => [])
  ++ (match extensions with
      | some e => [("extensions", e)]
      | none => [])

/-- `getDocumentType` from `src/lib/document.ts`:
`document.trim().startsWith("query") ? "query" : "mutation"`.
It is total and two-valued; subscriptions have no case of their own. -/
inductive DocType where
  | query : DocType
  | mutation : DocType
deriving DecidableEq

/-- Character-list prefix test (`String.prototype.startsWith`). -/
def charsStartWith : List Char → List Char → Bool
  | _, [] => true
  | [], _ :: _ => false
  | c :: cs, d :: ds => c == d && charsStartWith cs ds

/-- Leading-whitespace removal. -/
def dropLeadingWs : List Char → List Char
  | [] => []
  | c :: cs => if c.isWhitespace then dropLeadingWs cs else c :: cs

/-- `String.prototype.trim`: whitespace stripped from both ends. -/
def jsTrimChars (cs : List Char) : List Char :=
  ((dropLeadingWs ((dropLeadingWs cs.reverse)).reverse))

/-- `getDocumentType` (`src/lib/document.ts`). -/
def getDocumentType (document : String) : DocType :=
  if charsStartWith (jsTrimChars document.data) "query".data then DocType.query
  else DocType.mutation

/-- `isPersistedQueryNotFoundError`, element check
(`src/lib/request.ts` lines 31-40 / `src/lib/helpers.ts`): the callback of
`errors.some`. JS semantics of
`error.message?.includes("PersistedQueryNotFound") ||
error.extensions?.code === "PERSISTED_QUERY_NOT_FOUND"`:
* a `message` that is `undefined` or `null` short-circuits to falsy;
* a string `message` is a substring test;
* an array `message` is `Array.prototype.includes` (exact element match);
* any other `message` value throws a `TypeError`
  (`.includes` is not a function), modelled as `Except.error ()`;
* `extensions?.code` never throws: property access on any non-nullish
  value yields the field for objects and `undefined` otherwise, and `===`
  against the string compares exactly. -/
def containsSub (s sub : List Char) : Bool :=
  match s with
  | [] => sub.isEmpty
  | _ :: tail => sub.isPrefixOf s || containsSub tail sub

/-- `String.prototype.includes`. -/
def strIncludes (s sub : String) : Bool :=
  containsSub s.data sub.data

/-- The `errors.some` callback; see `containsSub` doc for the JS
semantics being modelled. -/
def checkErrorElem (e : Json) : Except Unit Bool :=
  match e with
  | Json.obj fields =>
    let msgPart : Except Unit Bool :=
      match fields.lookup "message" with
      | none => Except.ok false
      | some Json.null => Except.ok false
      | some (Json.str s) => Except.ok (strIncludes s "PersistedQueryNotFound")
      | some (Json.arr xs) => Except.ok (xs.any fun x =>
          match x with
          | Json.str s => s == "PersistedQueryNotFound"
          | _ => false)
      | some _ => Except.error ()
    match msgPart with
    | Except.error u => Except.error u
    | Except.ok true => Except.ok true
    | Except.ok false =>
      let code : Option Json :=
        match fields.lookup "extensions" with
        | some (Json.obj efields) => efields.lookup "code"
        | _ => none
      Except.ok (match code with
        | some (Json.str c) => c == "PERSISTED_QUERY_NOT_FOUND"
        | _ => false)
  | _ => Except.ok false

/-- `Array.prototype.some` with a callback that can throw: sequential,
short-circuits on the first `true`, propagates the first exception. -/
def someExcept (f : Json → Except Unit Bool) : List Json → Except Unit Bool
  | [] => Except.ok false
  | e :: es =>
    match f e with
    | Except.error u => Except.error u
    | Except.ok true => Except.ok true
    | Except.ok false => someExcept f es

/-- `isPersistedQueryNotFoundError` (`src/lib/request.ts` lines 20-44,
identical logic in `src/lib/helpers.ts`): the parsed body must be a
non-null object (a JS array has no own `errors` property, so only `obj`
can pass the `hasOwnProperty` check) whose `errors` field is an array;
then `errors.some(checkErrorElem)`. -/
def isPersistedQueryNotFoundError (responseData : Json) : Except Unit Bool :=
  match responseData with
  | Json.obj fields =>
    match fields.lookup "errors" with
    | some (Json.arr errs) => someExcept checkErrorElem errs
    | _ => Except.ok false
  | _ => Except.ok false

/-- HTTP method of an issued request. -/
inductive Method where
  | get : Method
  | post : Method
deriving DecidableEq

/-- One request handed to the transport. GET requests carry the
`createUrl` search parameters and no body; POST requests go to the plain
endpoint and carry the serialized body fields. Headers carry no claim and
are not modelled. -/
structure Request where
  method : Method
  endpoint : String
  urlParams : List (String × Json)
  body : Option (List (String × Json))

/-- A transport response: HTTP status, status text, and the result of
`response.json()` (`Except.error ()` when the body is not valid JSON).
`response.clone()` lets the body be read twice; the model simply reuses
`jsonBody`. -/
structure HttpResponse where
  status : Nat
  statusText : String
  jsonBody : Except Unit Json

/-- `response.ok`: status in 200-299. -/
def respOk (r : HttpResponse) : Bool :=
  decide (200 ≤ r.status) && decide (r.status ≤ 299)

/-- The transport oracle: `fetch`. `Except.error ()` is a thrown
transport-level error (no response at all). -/
def Net : Type := Request → Except Unit HttpResponse

/-- `executePost` (`src/lib/request.ts`, first revision, lines 80-93), and
the shared shape of every POST in the strategy revision: build the body
with `createRequestBody` and POST it to the endpoint. Returns the
singleton request trace and the transport outcome. -/
def executePost (endpoint : String) (payload : List (String × Option Json))
    (net : Net) : List Request × Except Unit HttpResponse :=
  let req : Request := ⟨Method.post, endpoint, [], some (createRequestBody payload)⟩
  ([req], net req)

/-- `standardPost` (`src/lib/request.ts`, strategy revision, lines
221-245): plain POST with `{query, variables}`. -/
def standardPost (endpoint : String) (op : Operation) (net : Net) :
    List Request × Except Unit HttpResponse :=
  executePost endpoint
    [("query", some (Json.str op.document)), ("variables", op.vars)] net

/-- The payload of `mutationPost` (`src/lib/request.ts`, strategy
revision, lines 261-273). -/
def mutationPayload (op : Operation) (alwaysIncludeQuery : Bool) :
    List (String × Option Json) :=
  if hasDocumentId op then
    [("documentId", op.documentId.map Json.str), ("variables", op.vars),
     ("query", if alwaysIncludeQuery then some (Json.str op.document) else none)]
  else
    [("query", some (Json.str op.document)), ("variables", op.vars)]

/-- `mutationPost` (`src/lib/request.ts`, strategy revision, lines
247-282): single POST, no fallback. -/
def mutationPost (endpoint : String) (op : Operation)
    (alwaysIncludeQuery : Bool) (net : Net) :
    List Request × Except Unit HttpResponse :=
  executePost endpoint (mutationPayload op alwaysIncludeQuery) net

/-- The `extensions` computed at the start of `apqQuery` (strategy
revision, lines 299-307): present unless a document id exists and
`alwaysIncludeQuery` is false. -/
def apqExtensions (hashHex : String → String) (op : Operation)
    (alwaysIncludeQuery : Bool) : Option Json :=
  if hasDocumentId op then
    (if alwaysIncludeQuery then some (getPersistedQueryExtension hashHex op.document)
     else none)
  else some (getPersistedQueryExtension hashHex op.document)

/-- `fallbackExtensions` of `apqQuery` (lines 309-310):
`alwaysIncludeQuery || !operation.documentId ? extensions : undefined`. -/
def apqFallbackExtensions (hashHex : String → String) (op : Operation)
    (alwaysIncludeQuery : Bool) : Option Json :=
  if alwaysIncludeQuery || !hasDocumentId op then
    apqExtensions hashHex op alwaysIncludeQuery
  else none

/-- The GET request issued by `apqQuery` (lines 312-317): the `createUrl`
URL, no body. -/
def apqGetRequest (hashHex : String → String) (endpoint : String)
    (op : Operation) (alwaysIncludeQuery : Bool) : Request :=
  ⟨Method.get, endpoint, createUrl op (apqExtensions hashHex op alwaysIncludeQuery), none⟩

/-- The payload of `apqPostFallback` (strategy revision, lines 356-367):
always `query` and `variables`; `documentId` appended if truthy;
`extensions` appended if supplied. -/
def apqFallbackPayload (op : Operation) (extensions : Option Json) :
    List (String × Option Json) :=
  [("query", some (Json.str op.document)), ("variables", op.vars)]
  ++ (if hasDocumentId op then [("documentId", op.documentId.map Json.str)] else [])
  ++ (match extensions with
      | some e => [("extensions", some e)]
      | none => [])

/-- `apqPostFallback` (`src/lib/request.ts`, strategy revision, lines
342-376): a single POST of the fallback payload. -/
def apqPostFallback (endpoint : String) (op : Operation)
    (extensions : Option Json) (net : Net) :
    List Request × Except Unit HttpResponse :=
  executePost endpoint (apqFallbackPayload op extensions) net

/-- The early-return decision on the GET response shared by both
revisions (`apqQuery` lines 319-331, `executeRequest` lines 170-184):
a 2xx response is final unless its JSON body satisfies the not-found
detector; a 2xx body that fails to parse, or on which the detector
throws, is also final (the `catch` returns the response); a non-2xx
response falls through to the fallback. -/
def apqReturnEarly (resp : HttpResponse) : Bool :=
  if respOk resp then
    match resp.jsonBody with
    | Except.error _ => true
    | Except.ok j =>
      match isPersistedQueryNotFoundError j with
      | Except.error _ => true
      | Except.ok b => !b
  else false

/-- `apqQuery` (`src/lib/request.ts`, strategy revision, lines 285-339):
GET first; on an early return the GET response is final; otherwise the
POST fallback runs. A thrown transport error on the GET is NOT caught in
this revision: it propagates (`.error`) and no fallback is issued. -/
def apqQuery (hashHex : String → String) (endpoint : String) (op : Operation)
    (alwaysIncludeQuery : Bool) (net : Net) :
    List Request × Except Unit HttpResponse :=
  match net (apqGetRequest hashHex endpoint op alwaysIncludeQuery) with
  | Except.error e =>
    ([apqGetRequest hashHex endpoint op alwaysIncludeQuery], Except.error e)
  | Except.ok resp =>
    if apqReturnEarly resp then
      ([apqGetRequest hashHex endpoint op alwaysIncludeQuery], Except.ok resp)
    else
      (apqGetRequest hashHex endpoint op alwaysIncludeQuery ::
        (apqPostFallback endpoint op
          (apqFallbackExtensions hashHex op alwaysIncludeQuery) net).1,
       (apqPostFallback endpoint op
          (apqFallbackExtensions hashHex op alwaysIncludeQuery) net).2)

/-- The GET URL of the `executeRequest` revision (lines 156-157): note it
passes `{ extensions }` to `createUrl`, wrapping the persisted-query
extension in one more object layer. -/
def v1GetRequest (hashHex : String → String) (endpoint : String)
    (op : Operation) : Request :=
  ⟨Method.get, endpoint,
   createUrl op (some (Json.obj
     [("extensions", getPersistedQueryExtension hashHex op.document)])), none⟩

/-- The APQ fallback payload of the `executeRequest` revision (lines
190-202): always `query`, `variables` and `extensions`; `documentId` only
when `alwaysIncludeQuery && operation.documentId`. -/
def v1FallbackPayload (hashHex : String → String) (op : Operation)
    (alwaysIncludeQuery : Bool) : List (String × Option Json) :=
  [("query", some (Json.str op.document)), ("variables", op.vars),
   ("extensions", some (getPersistedQueryExtension hashHex op.document)),
   ("documentId",
     if alwaysIncludeQuery && hasDocumentId op then op.documentId.map Json.str
     else none)]

/-- `executeRequest` (`src/lib/request.ts`, first revision, lines
98-203). Order: disable-override POST; mutation POST; persisted-document
POST (documentId present and query not forced); APQ GET with fallback.
In this revision the GET is inside `try`/`catch`: a thrown transport
error is absorbed and the fallback POST still runs. -/
def executeRequest (hashHex : String → String) (endpoint : String)
    (op : Operation) (disablePersistedOperations alwaysIncludeQuery : Bool)
    (documentType : DocType) (net : Net) :
    List Request × Except Unit HttpResponse :=
  if disablePersistedOperations then
    executePost endpoint
      [("query", some (Json.str op.document)), ("variables", op.vars)] net
  else if documentType = DocType.mutation then
    executePost endpoint
      (if hasDocumentId op then
        [("documentId", op.documentId.map Json.str), ("variables", op.vars),
         ("query", if alwaysIncludeQuery then some (Json.str op.document) else none)]
       else
        [("query", some (Json.str op.document)), ("variables", op.vars)]) net
  else if hasDocumentId op && !alwaysIncludeQuery then
    executePost endpoint
      [("documentId", op.documentId.map Json.str), ("variables", op.vars)] net
  else
    match net (v1GetRequest hashHex endpoint op) with
    | Except.error _ =>
      (v1GetRequest hashHex endpoint op ::
        (executePost endpoint (v1FallbackPayload hashHex op alwaysIncludeQuery) net).1,
       (executePost endpoint (v1FallbackPayload hashHex op alwaysIncludeQuery) net).2)
    | Except.ok resp =>
      if apqReturnEarly resp then ([v1GetRequest hashHex endpoint op], Except.ok resp)
      else
        (v1GetRequest hashHex endpoint op ::
          (executePost endpoint (v1FallbackPayload hashHex op alwaysIncludeQuery) net).1,
         (executePost endpoint (v1FallbackPayload hashHex op alwaysIncludeQuery) net).2)

/-- The strategy dispatch of `createServerClient.fetch`
(`src/server.ts` lines 226-239, same order in the `executeRequest` helper
of the strategy-revision server): disable-override, then mutations, then
the APQ query flow. -/
def executeStrategy (hashHex : String → String) (endpoint : String)
    (op : Operation) (disablePersistedOperations alwaysIncludeQuery : Bool)
    (documentType : DocType) (net : Net) :
    List Request × Except Unit HttpResponse :=
  if disablePersistedOperations then standardPost endpoint op net
  else if documentType = DocType.mutation then
    mutationPost endpoint op alwaysIncludeQuery net
  else apqQuery hashHex endpoint op alwaysIncludeQuery net

/-- What `createServerClient.fetch` hands back to the caller.
`clientError` and `parseError` are both thrown as `GraphQLClientError`;
`clientError` carries the final response's status and status text (in the
`HTTP Error: <status> <statusText>` message) and the original response.
`transportError` is the rethrown original (non-`GraphQLClientError`)
transport exception. -/
inductive ClientResult where
  | success : Json → ClientResult
  | clientError : Nat → String → HttpResponse → ClientResult
  | parseError : HttpResponse → ClientResult
  | transportError : ClientResult

/-- Response processing of `createServerClient.fetch` (`src/server.ts`
lines 240-292): a thrown strategy error is rethrown; a non-OK final
response raises `GraphQLClientError` with status, status text and the
response; an OK response is parsed as JSON, a parse failure raising
`GraphQLClientError` as well. -/
def processResult : Except Unit HttpResponse → ClientResult
  | Except.error _ => ClientResult.transportError
  | Except.ok resp =>
    if respOk resp then
      match resp.jsonBody with
      | Except.ok j => ClientResult.success j
      | Except.error _ => ClientResult.parseError resp
    else ClientResult.clientError resp.status resp.statusText resp

/-- `createServerClient.fetch` (`src/server.ts` lines 150-294), without
the hook and tracing plumbing that no claim touches: build the operation,
classify the document, run the dispatched strategy, process the final
outcome. -/
def serverClientFetch (hashHex : String → String) (endpoint : String)
    (document : String) (documentId : Option String) (vars : Option Json)
    (disablePersistedOperations alwaysIncludeQuery : Bool) (net : Net) :
    List Request × ClientResult :=
  ((executeStrategy hashHex endpoint (createOperation document documentId vars)
      disablePersistedOperations alwaysIncludeQuery (getDocumentType document)
      net).1,
   processResult (executeStrategy hashHex endpoint
      (createOperation document documentId vars) disablePersistedOperations
      alwaysIncludeQuery (getDocumentType document) net).2)

/-! ## Shared lemmas -/

theorem hasKey_append (a b : List (String × Json)) (k : String) :
    hasKey (a ++ b) k = (hasKey a k || hasKey b k) := by
  simp [hasKey, List.any_append]

/-- Membership in a built request body: a pair survives exactly when it
was a present, non-empty field of the payload. -/
theorem mem_createRequestBody (payload : List (String × Option Json))
    (k : String) (v : Json) :
    (k, v) ∈ createRequestBody payload ↔
      ((k, some v) ∈ payload ∧ (jsTruthy v && (jsKeysLength v != 0)) = true) := by
  unfold createRequestBody pruneObject
  rw [List.mem_filterMap]
  constructor
  · rintro ⟨⟨k', ov⟩, hmem, hf⟩
    cases ov with
    | none => simp at hf
    | some w =>
      simp only at hf
      split at hf
      · obtain ⟨hk, hv⟩ := Prod.mk.injEq .. ▸ Option.some.injEq .. ▸ hf
        cases hf
        rename_i hcond
        exact ⟨hmem, hcond⟩
      · exact absurd hf (by simp)
  · rintro ⟨hmem, hcond⟩
    exact ⟨(k, some v), hmem, by simp [hcond]⟩

/-! ## Theorems for the claims -/

/-- **C9** (confirmed). For every payload object given to
`createRequestBody`, a field appears in the serialized body exactly when
it is present and non-empty in the payload; in particular every absent or
empty field (`undefined`, `null`, `{}`, `[]`, `""`, also `0` and `false`)
is omitted entirely, and no key of the output maps to `null`, `{}` or
`""`. -/
theorem createRequestBody_prunes_empty_fields
    (payload : List (String × Option Json)) (k : String) (v : Json) :
    ((k, v) ∈ createRequestBody payload ↔
      ((k, some v) ∈ payload ∧ (jsTruthy v && (jsKeysLength v != 0)) = true))
    ∧ ((k, v) ∈ createRequestBody payload →
        v ≠ Json.null ∧ v ≠ Json.obj [] ∧ v ≠ Json.str "" ∧ v ≠ Json.arr []) := by
  refine ⟨mem_createRequestBody payload k v, fun hmem => ?_⟩
  obtain ⟨-, hcond⟩ := (mem_createRequestBody payload k v).mp hmem
  refine ⟨?_, ?_, ?_, ?_⟩ <;> rintro rfl <;>
    simp [jsTruthy, jsKeysLength] at hcond

/-- Witness for C9 at a concrete payload: the non-empty `query` field is
kept, while an empty `variables` object is omitted. -/
theorem createRequestBody_prunes_empty_fields_witness :
    ("query", Json.str "query Q { x }") ∈
      createRequestBody [("query", some (Json.str "query Q { x }")),
        ("variables", some (Json.obj []))]
    ∧ ("variables", Json.obj []) ∉
      createRequestBody [("query", some (Json.str "query Q { x }")),
        ("variables", some (Json.obj []))] := by
  constructor
  · exact (createRequestBody_prunes_empty_fields _ "query" (Json.str "query Q { x }")).1.mpr
      ⟨List.mem_cons_self _ _, by decide⟩
  · intro h
    obtain ⟨-, hcond⟩ := (createRequestBody_prunes_empty_fields _ "variables"
      (Json.obj [])).1.mp h
    exact absurd hcond (by decide)

/-- Modelled from the spec's words, for comparison with the source
detector (claim C5): true iff the value is an object with an `errors`
array in which some element is an object whose `message` field contains
the substring `"PersistedQueryNotFound"` or whose `extensions.code`
field equals `"PERSISTED_QUERY_NOT_FOUND"`. -/
def specNotFoundElem (e : Json) : Bool :=
  match e with
  | Json.obj ef =>
    (match ef.lookup "message" with
     | some (Json.str s) => strIncludes s "PersistedQueryNotFound"
     | _ => false)
    || (match ef.lookup "extensions" with
        | some (Json.obj xf) =>
          (match xf.lookup "code" with
           | some (Json.str c) => c == "PERSISTED_QUERY_NOT_FOUND"
           | _ => false)
        | _ => false)
  | _ => false

/-- Modelled from the spec's words (claim C5), top level. -/
def specPersistedQueryNotFound (j : Json) : Bool :=
  match j with
  | Json.obj fields =>
    match fields.lookup "errors" with
    | some (Json.arr errs) => errs.any specNotFoundElem
    | _ => false
  | _ => false

/-- An `errors` element on which the source detector cannot throw: if it
is an object, its `message` is absent, `null`, or a string. -/
def elemMessageWellTyped (e : Json) : Bool :=
  match e with
  | Json.obj ef =>
    match ef.lookup "message" with
    | none => true
    | some Json.null => true
    | some (Json.str _) => true
    | some _ => false
  | _ => true

/-- The inputs on which the source detector cannot throw. -/
def wellTypedMessages (j : Json) : Bool :=
  match j with
  | Json.obj fields =>
    match fields.lookup "errors" with
    | some (Json.arr errs) => errs.all elemMessageWellTyped
    | _ => true
  | _ => true

theorem checkErrorElem_eq_spec (e : Json)
    (h : elemMessageWellTyped e = true) :
    checkErrorElem e = Except.ok (specNotFoundElem e) := by
  cases e with
  | obj ef =>
    cases hm : ef.lookup "message" with
    | none =>
      simp only [checkErrorElem, specNotFoundElem, hm]
      cases hx : ef.lookup "extensions" with
      | none => simp
      | some x => cases x <;> simp
    | some m =>
      simp only [elemMessageWellTyped, hm] at h
      cases m with
      | null =>
        simp only [checkErrorElem, specNotFoundElem, hm]
        cases hx : ef.lookup "extensions" with
        | none => simp
        | some x => cases x <;> simp
      | str s =>
        simp only [checkErrorElem, specNotFoundElem, hm]
        cases hs : strIncludes s "PersistedQueryNotFound" with
        | true => simp
        | false =>
          simp only [Bool.false_or]
          cases hx : ef.lookup "extensions" with
          | none => simp
          | some x => cases x <;> simp
      | bool b => simp at h
      | num n => simp at h
      | arr xs => simp at h
      | obj o => simp at h
  | null => rfl
  | bool b => rfl
  | num n => rfl
  | str s => rfl
  | arr xs => rfl

theorem someExcept_eq_spec (errs : List Json)
    (h : errs.all elemMessageWellTyped = true) :
    someExcept checkErrorElem errs = Except.ok (errs.any specNotFoundElem) := by
  induction errs with
  | nil => rfl
  | cons e es ih =>
    rw [List.all_cons, Bool.and_eq_true] at h
    rw [someExcept, checkErrorElem_eq_spec e h.1]
    cases hs : specNotFoundElem e with
    | true => simp [hs]
    | false => simp [hs, ih h.2]

/-- **C5** (corrected): on inputs whose `message` fields are absent,
`null` or strings, the source detector agrees with the claim's detector
(object with an `errors` array, some element matching by `message`
substring or by `extensions.code`) and never throws. The unrestricted
claim fails: see the counterexample, where a numeric `message` makes the
JS code throw a `TypeError` from `error.message.includes`. -/
theorem isPersistedQueryNotFoundError_eq_spec (j : Json)
    (h : wellTypedMessages j = true) :
    isPersistedQueryNotFoundError j = Except.ok (specPersistedQueryNotFound j) := by
  cases j with
  | obj fields =>
    cases he : fields.lookup "errors" with
    | none => simp [isPersistedQueryNotFoundError, specPersistedQueryNotFound, he]
    | some ev =>
      cases ev with
      | arr errs =>
        simp only [wellTypedMessages, he] at h
        simp only [isPersistedQueryNotFoundError, specPersistedQueryNotFound, he]
        exact someExcept_eq_spec errs h
      | null => simp [isPersistedQueryNotFoundError, specPersistedQueryNotFound, he]
      | bool b => simp [isPersistedQueryNotFoundError, specPersistedQueryNotFound, he]
      | num n => simp [isPersistedQueryNotFoundError, specPersistedQueryNotFound, he]
      | str s => simp [isPersistedQueryNotFoundError, specPersistedQueryNotFound, he]
      | obj o => simp [isPersistedQueryNotFoundError, specPersistedQueryNotFound, he]
  | null => rfl
  | bool b => rfl
  | num n => rfl
  | str s => rfl
  | arr xs => rfl

/-- The body `{"errors":[{"message":42}]}`: a shape the claim says the
detector maps to `false` without raising. -/
def numericMessageBody : Json :=
  Json.obj [("errors", Json.arr [Json.obj [("message", Json.num 42)]])]

/-- **C5 counterexample**: on `{"errors":[{"message":42}]}` the source
detector throws (`42?.includes(...)` is a `TypeError` inside
`errors.some`, modelled as `Except.error ()`), while the claim says it
returns `false` (as the claim-side detector does) and never raises. -/
theorem isPersistedQueryNotFoundError_raises_counterexample :
    isPersistedQueryNotFoundError numericMessageBody = Except.error ()
    ∧ specPersistedQueryNotFound numericMessageBody = false :=
  ⟨rfl, rfl⟩

/-- Witness for the corrected C5 at the canonical not-found body. -/
theorem isPersistedQueryNotFoundError_eq_spec_witness :
    isPersistedQueryNotFoundError
      (Json.obj [("errors", Json.arr
        [Json.obj [("message", Json.str "PersistedQueryNotFound")]])])
      = Except.ok (specPersistedQueryNotFound
        (Json.obj [("errors", Json.arr
          [Json.obj [("message", Json.str "PersistedQueryNotFound")]])]))
    ∧ specPersistedQueryNotFound
        (Json.obj [("errors", Json.arr
          [Json.obj [("message", Json.str "PersistedQueryNotFound")]])]) = true :=
  ⟨isPersistedQueryNotFoundError_eq_spec _ rfl, rfl⟩

/-- The single request built by `standardPost`. -/
def standardPostRequest (endpoint : String) (op : Operation) : Request :=
  ⟨Method.post, endpoint, [],
   some (createRequestBody
     [("query", some (Json.str op.document)), ("variables", op.vars)])⟩

theorem standardPost_eq (endpoint : String) (op : Operation) (net : Net) :
    standardPost endpoint op net =
      ([standardPostRequest endpoint op], net (standardPostRequest endpoint op)) := rfl

/-- The single request built by `mutationPost`. -/
def mutationRequest (endpoint : String) (op : Operation)
    (alwaysIncludeQuery : Bool) : Request :=
  ⟨Method.post, endpoint, [],
   some (createRequestBody (mutationPayload op alwaysIncludeQuery))⟩

theorem mutationPost_eq (endpoint : String) (op : Operation)
    (alwaysIncludeQuery : Bool) (net : Net) :
    mutationPost endpoint op alwaysIncludeQuery net =
      ([mutationRequest endpoint op alwaysIncludeQuery],
       net (mutationRequest endpoint op alwaysIncludeQuery)) := rfl

/-- A trimmed document that starts with `subscription` does not start
with `query` (the keywords differ in their first letter). -/
theorem startsWith_subscription_not_query (cs : List Char)
    (h : charsStartWith cs "subscription".data = true) :
    charsStartWith cs "query".data = false := by
  have hs : "subscription".data = 's' :: "ubscription".data := rfl
  have hq : "query".data = 'q' :: "uery".data := rfl
  cases cs with
  | nil => rw [hs] at h; exact absurd h (by simp [charsStartWith])
  | cons c cs' =>
    rw [hs, charsStartWith, Bool.and_eq_true, beq_iff_eq] at h
    rw [hq, charsStartWith, h.1]
    simp

/-- **C10** (confirmed). `getDocumentType` is total and two-valued; it
returns `mutation` exactly when the trimmed document does not start with
the literal `query` (subscription operations, shorthand documents
beginning with a brace, fragment-only documents); such a document, with
persisted operations enabled, is routed to the single `mutationPost`
POST, not the APQ query path. -/
theorem getDocumentType_nonquery_routes_to_mutationPost
    (hashHex : String → String) (endpoint document : String)
    (documentId : Option String) (vars : Option Json)
    (alwaysIncludeQuery : Bool) (net : Net) :
    (getDocumentType document = DocType.query
      ∨ getDocumentType document = DocType.mutation)
    ∧ (getDocumentType document = DocType.mutation ↔
        charsStartWith (jsTrimChars document.data) "query".data = false)
    ∧ (charsStartWith (jsTrimChars document.data) "query".data = false →
        executeStrategy hashHex endpoint
            (createOperation document documentId vars) false alwaysIncludeQuery
            (getDocumentType document) net
          = ([mutationRequest endpoint (createOperation document documentId vars)
                alwaysIncludeQuery],
             net (mutationRequest endpoint (createOperation document documentId vars)
                alwaysIncludeQuery))
        ∧ (mutationRequest endpoint (createOperation document documentId vars)
            alwaysIncludeQuery).method = Method.post) := by
  refine ⟨?_, ?_, ?_⟩
  · unfold getDocumentType; split <;> simp
  · unfold getDocumentType
    cases h : charsStartWith (jsTrimChars document.data) "query".data <;> simp [h]
  · intro h
    have hm : getDocumentType document = DocType.mutation := by
      unfold getDocumentType; rw [h]; rfl
    rw [hm]
    refine ⟨?_, rfl⟩
    unfold executeStrategy
    rw [mutationPost_eq]
    simp

/-- Witness for C10: the anonymous shorthand document is classified as a
mutation and routed to the single mutation POST; subscription and
fragment documents are likewise classified as mutations. -/
theorem getDocumentType_nonquery_routes_to_mutationPost_witness :
    (executeStrategy (fun _ => "h") "http://x/graphql"
        (createOperation "{ posts { id } }" none none) false false
        (getDocumentType "{ posts { id } }") (fun _ => Except.error ())
      = ([mutationRequest "http://x/graphql"
            (createOperation "{ posts { id } }" none none) false],
         (fun _ => Except.error ()) (mutationRequest "http://x/graphql"
            (createOperation "{ posts { id } }" none none) false))
      ∧ (mutationRequest "http://x/graphql"
          (createOperation "{ posts { id } }" none none) false).method
          = Method.post)
    ∧ getDocumentType "subscription OnX { x }" = DocType.mutation
    ∧ getDocumentType "fragment F on T { id }" = DocType.mutation :=
  ⟨(getDocumentType_nonquery_routes_to_mutationPost (fun _ => "h")
      "http://x/graphql" "{ posts { id } }" none none false
      (fun _ => Except.error ())).2.2 (by decide), rfl, rfl⟩

/-- **C1 amended** (the claim is corrected): the code has no
"unsupported operation kind" error at all. An operation whose trimmed
document starts with `subscription` is classified as a mutation by
`getDocumentType`, and `createServerClient.fetch` issues exactly one POST
request for it under any configuration (the disable-override standard
POST or the mutation POST); the network IS contacted. -/
theorem subscription_is_treated_as_mutation
    (hashHex : String → String) (endpoint document : String)
    (documentId : Option String) (vars : Option Json)
    (disablePersistedOperations alwaysIncludeQuery : Bool) (net : Net)
    (hsub : charsStartWith (jsTrimChars document.data) "subscription".data = true) :
    getDocumentType document = DocType.mutation
    ∧ ∃ req : Request,
        executeStrategy hashHex endpoint (createOperation document documentId vars)
          disablePersistedOperations alwaysIncludeQuery
          (getDocumentType document) net = ([req], net req)
        ∧ req.method = Method.post := by
  have hq := startsWith_subscription_not_query _ hsub
  have hm : getDocumentType document = DocType.mutation := by
    unfold getDocumentType; rw [hq]; rfl
  refine ⟨hm, ?_⟩
  rw [hm]
  unfold executeStrategy
  cases disablePersistedOperations with
  | true =>
    exact ⟨standardPostRequest endpoint (createOperation document documentId vars),
      by rw [if_pos rfl, standardPost_eq], rfl⟩
  | false =>
    refine ⟨mutationRequest endpoint (createOperation document documentId vars)
      alwaysIncludeQuery, ?_, rfl⟩
    rw [if_neg (by simp), if_pos rfl, mutationPost_eq]

/-- A transport oracle answering every request with a 200 JSON response. -/
def netAlwaysOkData : Net :=
  fun _ => Except.ok ⟨200, "OK", Except.ok (Json.obj [("data", Json.null)])⟩

/-- **C1 counterexample**: for the subscription document
`subscription OnX { x }` the client does not fail before the network; it
issues one HTTP POST (carrying the subscription text as `query`) and
returns the server's body, refuting "no HTTP request is ever issued for a
subscription document" and "fails immediately with an unsupported
operation kind error". -/
theorem subscription_issues_a_post_counterexample :
    serverClientFetch (fun _ => "h") "http://x/graphql" "subscription OnX { x }"
      none none false false netAlwaysOkData
      = ([⟨Method.post, "http://x/graphql", [],
           some [("query", Json.str "subscription OnX { x }")]⟩],
         ClientResult.success (Json.obj [("data", Json.null)])) := rfl

/-- Witness for the amended C1 at a concrete subscription document. -/
theorem subscription_is_treated_as_mutation_witness :
    getDocumentType "subscription OnX { x }" = DocType.mutation
    ∧ ∃ req : Request,
        executeStrategy (fun _ => "h") "http://x/graphql"
          (createOperation "subscription OnX { x }" none none) false false
          (getDocumentType "subscription OnX { x }") netAlwaysOkData
          = ([req], netAlwaysOkData req)
        ∧ req.method = Method.post :=
  subscription_is_treated_as_mutation (fun _ => "h") "http://x/graphql"
    "subscription OnX { x }" none none false false netAlwaysOkData (by decide)

/-- Key membership in a pruned body, computed on the raw payload: a key
is present exactly when some payload field has that key and a non-empty
value. -/
theorem hasKey_pruneObject (payload : List (String × Option Json)) (k : String) :
    hasKey (pruneObject payload) k
      = payload.any fun kv => kv.1 == k && objectIsNotEmpty kv.2 := by
  induction payload with
  | nil => rfl
  | cons kv rest ih =>
    obtain ⟨k', ov⟩ := kv
    cases ov with
    | none =>
      simpa [pruneObject, List.filterMap_cons, objectIsNotEmpty] using ih
    | some v =>
      cases hk : (jsTruthy v && (jsKeysLength v != 0)) with
      | false =>
        simp only [pruneObject, List.filterMap_cons, hk] at ih ⊢
        simpa [objectIsNotEmpty, hk] using ih
      | true =>
        simp only [pruneObject, List.filterMap_cons, hk] at ih ⊢
        simp [hasKey, objectIsNotEmpty, hk, List.any_cons] at ih ⊢
        rw [ih]

theorem objectIsNotEmpty_str (s : String) :
    objectIsNotEmpty (some (Json.str s)) = (s.length != 0) := by
  simp [objectIsNotEmpty, jsTruthy, jsKeysLength]

/-- The body built by `standardPost`. -/
def standardBody (op : Operation) : List (String × Json) :=
  createRequestBody [("query", some (Json.str op.document)), ("variables", op.vars)]

theorem standardBody_keys (op : Operation) (hdoc : op.document.length ≠ 0) :
    hasKey (standardBody op) "query" = true
    ∧ hasKey (standardBody op) "variables" = objectIsNotEmpty op.vars
    ∧ hasKey (standardBody op) "documentId" = false
    ∧ hasKey (standardBody op) "extensions" = false := by
  unfold standardBody createRequestBody
  rw [hasKey_pruneObject, hasKey_pruneObject, hasKey_pruneObject, hasKey_pruneObject]
  simp [objectIsNotEmpty_str, hdoc]

/-- **C6 amended** (the claim is corrected): with
`disablePersistedOperations` true, every operation (any kind, any
document id) is sent as exactly one POST with no fallback; the body
contains `query`, never contains `documentId` or `extensions`, and
contains `variables` exactly when the variables value is non-empty (an
absent or empty `variables` is pruned from the body, against the claim's
"always contains query and variables"). -/
theorem disablePersistedOperations_single_standard_post
    (hashHex : String → String) (endpoint : String) (op : Operation)
    (alwaysIncludeQuery : Bool) (documentType : DocType) (net : Net)
    (hdoc : op.document.length ≠ 0) :
    executeStrategy hashHex endpoint op true alwaysIncludeQuery documentType net
      = ([standardPostRequest endpoint op], net (standardPostRequest endpoint op))
    ∧ (standardPostRequest endpoint op).method = Method.post
    ∧ (standardPostRequest endpoint op).body = some (standardBody op)
    ∧ hasKey (standardBody op) "query" = true
    ∧ hasKey (standardBody op) "variables" = objectIsNotEmpty op.vars
    ∧ hasKey (standardBody op) "documentId" = false
    ∧ hasKey (standardBody op) "extensions" = false := by
  obtain ⟨h1, h2, h3, h4⟩ := standardBody_keys op hdoc
  exact ⟨by unfold executeStrategy; rw [if_pos rfl, standardPost_eq],
    rfl, rfl, h1, h2, h3, h4⟩

/-- **C6 counterexample**: a query with a supplied document id and no
variables, under `disablePersistedOperations = true`: the single POST
body is exactly `{"query": ...}` — the claim's "body contains query and
variables" fails (`variables` is pruned), though `documentId` and
`extensions` are indeed absent. -/
theorem disabled_post_omits_empty_variables_counterexample :
    serverClientFetch (fun _ => "h") "http://x/graphql" "query Q { x }"
      (some "doc-1") none true false netAlwaysOkData
      = ([⟨Method.post, "http://x/graphql", [],
           some [("query", Json.str "query Q { x }")]⟩],
         ClientResult.success (Json.obj [("data", Json.null)]))
    ∧ hasKey [("query", Json.str "query Q { x }")] "variables" = false := ⟨rfl, rfl⟩

/-- Witness for the amended C6 at a concrete operation. -/
theorem disablePersistedOperations_single_standard_post_witness :
    executeStrategy (fun _ => "h") "http://x/graphql"
      (createOperation "query Q { x }" (some "doc-1") none) true false
      DocType.query netAlwaysOkData
      = ([standardPostRequest "http://x/graphql"
            (createOperation "query Q { x }" (some "doc-1") none)],
         netAlwaysOkData (standardPostRequest "http://x/graphql"
            (createOperation "query Q { x }" (some "doc-1") none)))
    ∧ hasKey (standardBody (createOperation "query Q { x }" (some "doc-1") none))
        "variables" = objectIsNotEmpty
          (createOperation "query Q { x }" (some "doc-1") none).vars :=
  ⟨(disablePersistedOperations_single_standard_post (fun _ => "h") "http://x/graphql"
      (createOperation "query Q { x }" (some "doc-1") none) false DocType.query
      netAlwaysOkData (by decide)).1,
   (disablePersistedOperations_single_standard_post (fun _ => "h") "http://x/graphql"
      (createOperation "query Q { x }" (some "doc-1") none) false DocType.query
      netAlwaysOkData (by decide)).2.2.2.2.1⟩

theorem hasDocumentId_some (op : Operation) (h : hasDocumentId op = true) :
    ∃ s, op.documentId = some s ∧ (s.length != 0) = true := by
  cases hid : op.documentId with
  | none => rw [hasDocumentId, hid] at h; exact absurd h (by simp)
  | some s =>
    refine ⟨s, rfl, ?_⟩
    rw [hasDocumentId, hid] at h
    exact h

/-- The body built by `mutationPost`. -/
def mutationBody (op : Operation) (alwaysIncludeQuery : Bool) : List (String × Json) :=
  createRequestBody (mutationPayload op alwaysIncludeQuery)

theorem mutationBody_keys (op : Operation) (alwaysIncludeQuery : Bool)
    (hdoc : op.document.length ≠ 0) :
    hasKey (mutationBody op alwaysIncludeQuery) "extensions" = false
    ∧ (hasDocumentId op = true →
        hasKey (mutationBody op alwaysIncludeQuery) "documentId" = true
        ∧ hasKey (mutationBody op alwaysIncludeQuery) "query" = alwaysIncludeQuery
        ∧ hasKey (mutationBody op alwaysIncludeQuery) "variables"
            = objectIsNotEmpty op.vars)
    ∧ (hasDocumentId op = false →
        hasKey (mutationBody op alwaysIncludeQuery) "documentId" = false
        ∧ hasKey (mutationBody op alwaysIncludeQuery) "query" = true
        ∧ hasKey (mutationBody op alwaysIncludeQuery) "variables"
            = objectIsNotEmpty op.vars) := by
  unfold mutationBody createRequestBody mutationPayload
  cases hid : hasDocumentId op with
  | true =>
    obtain ⟨s, hs, hslen⟩ := hasDocumentId_some op hid
    have hs' : s.length ≠ 0 := by simpa using hslen
    rw [if_pos rfl, hs]
    refine ⟨?_, fun _ => ⟨?_, ?_, ?_⟩, fun hc => absurd hc (by simp)⟩ <;>
      rw [hasKey_pruneObject] <;>
      cases alwaysIncludeQuery <;>
      simp [objectIsNotEmpty_str, objectIsNotEmpty, jsTruthy, jsKeysLength,
        hs', hdoc]
  | false =>
    rw [if_neg (by simp [hid])]
    refine ⟨?_, fun hc => absurd hc (by simp [hid]), fun _ => ⟨?_, ?_, ?_⟩⟩ <;>
      rw [hasKey_pruneObject] <;>
      simp [objectIsNotEmpty_str, objectIsNotEmpty, jsTruthy, jsKeysLength, hdoc]

/-- **C7 amended** (the claim is corrected): a mutation operation with
`disablePersistedOperations` false is sent as exactly one POST with no
fallback and its body never contains `extensions`; if `documentId` is
truthy, the body contains `documentId`, contains `query` exactly when
`alwaysIncludeQuery` is true, and contains `variables` exactly when the
variables value is non-empty; otherwise the body contains `query` and
contains `variables` exactly when non-empty. (The claim's unconditional
"contains ... variables" fails: empty variables are pruned.) -/
theorem mutation_single_post
    (hashHex : String → String) (endpoint : String) (op : Operation)
    (alwaysIncludeQuery : Bool) (net : Net)
    (hmut : getDocumentType op.document = DocType.mutation)
    (hdoc : op.document.length ≠ 0) :
    executeStrategy hashHex endpoint op false alwaysIncludeQuery
        (getDocumentType op.document) net
      = ([mutationRequest endpoint op alwaysIncludeQuery],
         net (mutationRequest endpoint op alwaysIncludeQuery))
    ∧ (mutationRequest endpoint op alwaysIncludeQuery).method = Method.post
    ∧ (mutationRequest endpoint op alwaysIncludeQuery).body
        = some (mutationBody op alwaysIncludeQuery)
    ∧ hasKey (mutationBody op alwaysIncludeQuery) "extensions" = false
    ∧ (hasDocumentId op = true →
        hasKey (mutationBody op alwaysIncludeQuery) "documentId" = true
        ∧ hasKey (mutationBody op alwaysIncludeQuery) "query" = alwaysIncludeQuery
        ∧ hasKey (mutationBody op alwaysIncludeQuery) "variables"
            = objectIsNotEmpty op.vars)
    ∧ (hasDocumentId op = false →
        hasKey (mutationBody op alwaysIncludeQuery) "documentId" = false
        ∧ hasKey (mutationBody op alwaysIncludeQuery) "query" = true
        ∧ hasKey (mutationBody op alwaysIncludeQuery) "variables"
            = objectIsNotEmpty op.vars) := by
  obtain ⟨h1, h2, h3⟩ := mutationBody_keys op alwaysIncludeQuery hdoc
  refine ⟨?_, rfl, rfl, h1, h2, h3⟩
  rw [hmut]
  unfold executeStrategy
  rw [if_neg (by simp), if_pos rfl, mutationPost_eq]

/-- **C7 counterexample**: a mutation with a document id and no
variables: the single POST body is exactly `{"documentId": ...}` — the
claim's "the body contains documentId and variables" fails (`variables`
is pruned). -/
theorem mutation_post_omits_empty_variables_counterexample :
    serverClientFetch (fun _ => "h") "http://x/graphql" "mutation M { x }"
      (some "doc-7") none false false netAlwaysOkData
      = ([⟨Method.post, "http://x/graphql", [],
           some [("documentId", Json.str "doc-7")]⟩],
         ClientResult.success (Json.obj [("data", Json.null)]))
    ∧ hasKey [("documentId", Json.str "doc-7")] "variables" = false := ⟨rfl, rfl⟩

/-- Witness for the amended C7 at a concrete mutation operation. -/
theorem mutation_single_post_witness :
    executeStrategy (fun _ => "h") "http://x/graphql"
      (createOperation "mutation M { x }" (some "doc-7")
        (some (Json.obj [("a", Json.num 1)]))) false false
      (getDocumentType "mutation M { x }") netAlwaysOkData
      = ([mutationRequest "http://x/graphql"
            (createOperation "mutation M { x }" (some "doc-7")
              (some (Json.obj [("a", Json.num 1)]))) false],
         netAlwaysOkData (mutationRequest "http://x/graphql"
            (createOperation "mutation M { x }" (some "doc-7")
              (some (Json.obj [("a", Json.num 1)]))) false))
    ∧ hasKey (mutationBody (createOperation "mutation M { x }" (some "doc-7")
        (some (Json.obj [("a", Json.num 1)]))) false) "documentId" = true :=
  ⟨(mutation_single_post (fun _ => "h") "http://x/graphql"
      (createOperation "mutation M { x }" (some "doc-7")
        (some (Json.obj [("a", Json.num 1)]))) false netAlwaysOkData rfl
      (by decide)).1,
   ((mutation_single_post (fun _ => "h") "http://x/graphql"
      (createOperation "mutation M { x }" (some "doc-7")
        (some (Json.obj [("a", Json.num 1)]))) false netAlwaysOkData rfl
      (by decide)).2.2.2.2.1 rfl).1⟩

theorem createUrl_no_extensions_key (op : Operation) :
    hasKey (createUrl op none) "extensions" = false := by
  unfold createUrl
  rw [hasKey_append, hasKey_append, hasKey_append]
  have h2 : hasKey (match op.documentId with
      | some s => if s.length != 0 then [("documentId", Json.str s)] else []
      | none => []) "extensions" = false := by
    cases op.documentId with
    | none => rfl
    | some s =>
      cases hl : (s.length != 0) <;> simp [hl, hasKey]
  have h3 : hasKey (match op.vars with
      | some v => if jsTruthy v && (jsKeysLength v != 0) then [("variables", v)] else []
      | none => []) "extensions" = false := by
    cases op.vars with
    | none => rfl
    | some v =>
      cases hl : (jsTruthy v && (jsKeysLength v != 0)) <;> simp [hl, hasKey]
  rw [h2, h3]
  simp [hasKey]

theorem mem_createUrl_extensions (op : Operation) (e : Json) :
    ("extensions", e) ∈ createUrl op (some e) := by
  unfold createUrl
  simp

/-- **C4** (confirmed). For a query operation with
`disablePersistedOperations` false, the dispatched strategy is `apqQuery`
and its first request is always the GET; when `documentId` is truthy and
`alwaysIncludeQuery` is false, that GET's URL carries no `extensions`
parameter, and if the server answers 2xx with a body that is not the
not-found condition it is the only request; in every other query case
(`documentId` absent, or `alwaysIncludeQuery` true) the GET URL carries
the `extensions` parameter holding the persisted-query sha256 extension
of the document. -/
theorem apq_get_url_extensions
    (hashHex : String → String) (endpoint : String) (op : Operation)
    (alwaysIncludeQuery : Bool) (net : Net)
    (hq : getDocumentType op.document = DocType.query) :
    (executeStrategy hashHex endpoint op false alwaysIncludeQuery
        (getDocumentType op.document) net
      = apqQuery hashHex endpoint op alwaysIncludeQuery net)
    ∧ ((apqQuery hashHex endpoint op alwaysIncludeQuery net).1.head?
        = some (apqGetRequest hashHex endpoint op alwaysIncludeQuery)
       ∧ (apqGetRequest hashHex endpoint op alwaysIncludeQuery).method = Method.get)
    ∧ (hasDocumentId op = true → alwaysIncludeQuery = false →
        hasKey (apqGetRequest hashHex endpoint op alwaysIncludeQuery).urlParams
          "extensions" = false)
    ∧ (∀ resp j, net (apqGetRequest hashHex endpoint op alwaysIncludeQuery)
          = Except.ok resp →
        respOk resp = true → resp.jsonBody = Except.ok j →
        isPersistedQueryNotFoundError j = Except.ok false →
        apqQuery hashHex endpoint op alwaysIncludeQuery net
          = ([apqGetRequest hashHex endpoint op alwaysIncludeQuery], Except.ok resp))
    ∧ ((hasDocumentId op = false ∨ alwaysIncludeQuery = true) →
        ("extensions", getPersistedQueryExtension hashHex op.document)
          ∈ (apqGetRequest hashHex endpoint op alwaysIncludeQuery).urlParams) := by
  refine ⟨?_, ⟨?_, rfl⟩, ?_, ?_, ?_⟩
  · rw [hq]
    unfold executeStrategy
    rw [if_neg (by simp), if_neg (by simp)]
  · unfold apqQuery
    cases hnet : net (apqGetRequest hashHex endpoint op alwaysIncludeQuery) with
    | error e => simp [hnet]
    | ok resp => cases h : apqReturnEarly resp <;> simp [hnet, h]
  · intro hid haiq
    subst haiq
    show hasKey (createUrl op (apqExtensions hashHex op false)) "extensions" = false
    have : apqExtensions hashHex op false = none := by
      unfold apqExtensions
      rw [if_pos hid]
      rfl
    rw [this]
    exact createUrl_no_extensions_key op
  · intro resp j hnet hok hbody hpqnf
    unfold apqQuery
    rw [hnet]
    have hearly : apqReturnEarly resp = true := by
      unfold apqReturnEarly
      rw [if_pos hok, hbody]
      simp [hpqnf]
    simp [hearly]
  · intro h
    show ("extensions", getPersistedQueryExtension hashHex op.document)
      ∈ createUrl op (apqExtensions hashHex op alwaysIncludeQuery)
    have : apqExtensions hashHex op alwaysIncludeQuery
        = some (getPersistedQueryExtension hashHex op.document) := by
      unfold apqExtensions
      rcases h with hid | haiq
      · rw [if_neg (by simp [hid])]
      · cases hd : hasDocumentId op <;> simp [haiq]
    rw [this]
    exact mem_createUrl_extensions op _

/-- A query operation carrying a persisted document id and no variables. -/
def opWithDocId : Operation := createOperation "query Q { x }" (some "doc-1") none

/-- Witness for C4: with a document id and `alwaysIncludeQuery` false, the
GET URL has no `extensions` parameter, and a clean 200 JSON answer makes
the GET the only request. -/
theorem apq_get_url_extensions_witness :
    hasKey (apqGetRequest (fun _ => "h") "http://x/graphql" opWithDocId false).urlParams
      "extensions" = false
    ∧ apqQuery (fun _ => "h") "http://x/graphql" opWithDocId false netAlwaysOkData
      = ([apqGetRequest (fun _ => "h") "http://x/graphql" opWithDocId false],
         Except.ok ⟨200, "OK", Except.ok (Json.obj [("data", Json.null)])⟩) :=
  ⟨(apq_get_url_extensions (fun _ => "h") "http://x/graphql" opWithDocId false
      netAlwaysOkData (by decide)).2.2.1 (by decide) rfl,
   (apq_get_url_extensions (fun _ => "h") "http://x/graphql" opWithDocId false
      netAlwaysOkData (by decide)).2.2.2.1
      ⟨200, "OK", Except.ok (Json.obj [("data", Json.null)])⟩
      (Json.obj [("data", Json.null)]) rfl rfl rfl rfl⟩

theorem createUrl_extensions_key_some (op : Operation) (e : Json) :
    hasKey (createUrl op (some e)) "extensions" = true := by
  unfold createUrl
  rw [hasKey_append, hasKey_append, hasKey_append]
  simp [hasKey]

/-- The serialized body of the APQ POST fallback as issued by `apqQuery`. -/
def apqFallbackBody (hashHex : String → String) (op : Operation)
    (alwaysIncludeQuery : Bool) : List (String × Json) :=
  createRequestBody
    (apqFallbackPayload op (apqFallbackExtensions hashHex op alwaysIncludeQuery))

/-- The POST request issued by the fallback branch of `apqQuery`. -/
def apqFallbackRequest (hashHex : String → String) (endpoint : String)
    (op : Operation) (alwaysIncludeQuery : Bool) : Request :=
  ⟨Method.post, endpoint, [], some (apqFallbackBody hashHex op alwaysIncludeQuery)⟩

theorem objectIsNotEmpty_pq (hashHex : String → String) (d : String) :
    objectIsNotEmpty (some (getPersistedQueryExtension hashHex d)) = true := by
  simp [objectIsNotEmpty, getPersistedQueryExtension, jsTruthy, jsKeysLength]

theorem apqFallbackBody_keys (hashHex : String → String) (op : Operation)
    (alwaysIncludeQuery : Bool) (hdoc : op.document.length ≠ 0) :
    hasKey (apqFallbackBody hashHex op alwaysIncludeQuery) "query" = true
    ∧ hasKey (apqFallbackBody hashHex op alwaysIncludeQuery) "variables"
        = objectIsNotEmpty op.vars
    ∧ hasKey (apqFallbackBody hashHex op alwaysIncludeQuery) "documentId"
        = hasDocumentId op
    ∧ hasKey (apqFallbackBody hashHex op alwaysIncludeQuery) "extensions"
        = (alwaysIncludeQuery || !hasDocumentId op) := by
  unfold apqFallbackBody createRequestBody apqFallbackPayload apqFallbackExtensions
    apqExtensions
  cases hid : hasDocumentId op with
  | true =>
    obtain ⟨s, hs, hslen⟩ := hasDocumentId_some op hid
    have hs' : s.length ≠ 0 := by simpa using hslen
    cases alwaysIncludeQuery <;>
      refine ⟨?_, ?_, ?_, ?_⟩ <;>
        rw [hasKey_pruneObject] <;>
        simp [hs, hs', hdoc, objectIsNotEmpty_str, objectIsNotEmpty_pq,
          objectIsNotEmpty, jsTruthy, jsKeysLength, getPersistedQueryExtension]
  | false =>
    cases alwaysIncludeQuery <;>
      refine ⟨?_, ?_, ?_, ?_⟩ <;>
        rw [hasKey_pruneObject] <;>
        simp [hid, hdoc, objectIsNotEmpty_str, objectIsNotEmpty_pq,
          objectIsNotEmpty, jsTruthy, jsKeysLength, getPersistedQueryExtension]

/-- **C2 amended** (the claim is corrected): when the APQ GET comes back
2xx with a body satisfying the not-found detector, exactly one further
request is issued — a POST, so two requests total with the GET strictly
first — and the fallback is attempted at most once; the fallback body
contains `query`, contains `documentId` exactly when the operation's
document id is truthy, contains the persisted-query `extensions` exactly
when the GET itself carried the `extensions` URL parameter (`documentId`
absent, or `alwaysIncludeQuery` true), and contains `variables` exactly
when the variables value is non-empty (the claim's unconditional
"always contains ... variables" fails: empty variables are pruned). -/
theorem apq_not_found_single_post_fallback
    (hashHex : String → String) (endpoint : String) (op : Operation)
    (alwaysIncludeQuery : Bool) (net : Net) (resp : HttpResponse) (j : Json)
    (hdoc : op.document.length ≠ 0)
    (hnet : net (apqGetRequest hashHex endpoint op alwaysIncludeQuery)
      = Except.ok resp)
    (hok : respOk resp = true)
    (hbody : resp.jsonBody = Except.ok j)
    (hpqnf : isPersistedQueryNotFoundError j = Except.ok true) :
    apqQuery hashHex endpoint op alwaysIncludeQuery net
      = ([apqGetRequest hashHex endpoint op alwaysIncludeQuery,
          apqFallbackRequest hashHex endpoint op alwaysIncludeQuery],
         net (apqFallbackRequest hashHex endpoint op alwaysIncludeQuery))
    ∧ (apqGetRequest hashHex endpoint op alwaysIncludeQuery).method = Method.get
    ∧ (apqFallbackRequest hashHex endpoint op alwaysIncludeQuery).method
        = Method.post
    ∧ hasKey (apqFallbackBody hashHex op alwaysIncludeQuery) "query" = true
    ∧ hasKey (apqFallbackBody hashHex op alwaysIncludeQuery) "variables"
        = objectIsNotEmpty op.vars
    ∧ hasKey (apqFallbackBody hashHex op alwaysIncludeQuery) "documentId"
        = hasDocumentId op
    ∧ hasKey (apqFallbackBody hashHex op alwaysIncludeQuery) "extensions"
        = hasKey (apqGetRequest hashHex endpoint op alwaysIncludeQuery).urlParams
            "extensions" := by
  obtain ⟨h1, h2, h3, h4⟩ := apqFallbackBody_keys hashHex op alwaysIncludeQuery hdoc
  have hearly : apqReturnEarly resp = false := by
    unfold apqReturnEarly
    rw [if_pos hok, hbody]
    simp [hpqnf]
  have hurl : hasKey (apqGetRequest hashHex endpoint op alwaysIncludeQuery).urlParams
      "extensions" = (alwaysIncludeQuery || !hasDocumentId op) := by
    show hasKey (createUrl op (apqExtensions hashHex op alwaysIncludeQuery))
      "extensions" = (alwaysIncludeQuery || !hasDocumentId op)
    unfold apqExtensions
    cases hid : hasDocumentId op <;> cases alwaysIncludeQuery <;>
      simp [createUrl_no_extensions_key, createUrl_extensions_key_some]
  refine ⟨?_, rfl, rfl, h1, h2, h3, by rw [h4, hurl]⟩
  unfold apqQuery
  rw [hnet]
  simp [hearly, apqPostFallback, executePost, apqFallbackRequest, apqFallbackBody]

/-- The canonical persisted-query-not-found response body. -/
def notFoundBody : Json :=
  Json.obj [("errors", Json.arr
    [Json.obj [("message", Json.str "PersistedQueryNotFound")]])]

/-- A server that answers GET with the not-found error and POST with
data. -/
def netNotFoundOnGet : Net := fun r =>
  match r.method with
  | Method.get => Except.ok ⟨200, "OK", Except.ok notFoundBody⟩
  | Method.post => Except.ok ⟨200, "OK", Except.ok (Json.obj [("data", Json.null)])⟩

/-- The persisted-query extension produced under the constant hash
function used by the concrete scenarios. -/
def pqExtH : Json :=
  Json.obj [("persistedQuery", Json.obj
    [("version", Json.num 1), ("sha256Hash", Json.str "h")])]

/-- **C2 counterexample**: a query with no document id and no variables
whose GET is answered with PersistedQueryNotFound: the fallback POST body
is exactly `{"query": ..., "extensions": ...}` — it does not contain
`variables`, though the claim says the fallback body always contains
`query` and `variables`. -/
theorem apq_fallback_omits_empty_variables_counterexample :
    apqQuery (fun _ => "h") "http://x/graphql"
      (createOperation "query Q { x }" none none) false netNotFoundOnGet
      = ([⟨Method.get, "http://x/graphql",
            [("op", Json.str "Q"), ("extensions", pqExtH)], none⟩,
          ⟨Method.post, "http://x/graphql", [],
            some [("query", Json.str "query Q { x }"), ("extensions", pqExtH)]⟩],
         Except.ok ⟨200, "OK", Except.ok (Json.obj [("data", Json.null)])⟩)
    ∧ hasKey [("query", Json.str "query Q { x }"), ("extensions", pqExtH)]
        "variables" = false := ⟨rfl, rfl⟩

/-- Witness for the amended C2 at the same concrete scenario. -/
theorem apq_not_found_single_post_fallback_witness :
    apqQuery (fun _ => "h") "http://x/graphql"
      (createOperation "query Q { x }" none none) false netNotFoundOnGet
      = ([apqGetRequest (fun _ => "h") "http://x/graphql"
            (createOperation "query Q { x }" none none) false,
          apqFallbackRequest (fun _ => "h") "http://x/graphql"
            (createOperation "query Q { x }" none none) false],
         netNotFoundOnGet (apqFallbackRequest (fun _ => "h") "http://x/graphql"
            (createOperation "query Q { x }" none none) false))
    ∧ hasKey (apqFallbackBody (fun _ => "h")
        (createOperation "query Q { x }" none none) false) "query" = true :=
  ⟨(apq_not_found_single_post_fallback (fun _ => "h") "http://x/graphql"
      (createOperation "query Q { x }" none none) false netNotFoundOnGet
      ⟨200, "OK", Except.ok notFoundBody⟩ notFoundBody
      (by decide) rfl rfl rfl rfl).1,
   (apq_not_found_single_post_fallback (fun _ => "h") "http://x/graphql"
      (createOperation "query Q { x }" none none) false netNotFoundOnGet
      ⟨200, "OK", Except.ok notFoundBody⟩ notFoundBody
      (by decide) rfl rfl rfl rfl).2.2.2.1⟩

/-- The APQ fallback POST of the `executeRequest` revision. -/
def v1FallbackRequest (hashHex : String → String) (endpoint : String)
    (op : Operation) (alwaysIncludeQuery : Bool) : Request :=
  ⟨Method.post, endpoint, [],
   some (createRequestBody (v1FallbackPayload hashHex op alwaysIncludeQuery))⟩

/-- **C3 amended** (the claim is corrected): the two revisions in
`src/lib/request.ts` disagree. In the `executeRequest` revision the APQ
GET sits in a `try`/`catch`: a thrown transport error is absorbed, the
fallback POST is still issued, and only the fallback's outcome reaches
the caller. In the `apqQuery` strategy revision there is no
`try`/`catch` around the GET: a thrown transport error propagates to the
caller at once and no fallback POST is issued. -/
theorem apq_get_transport_error_handling
    (hashHex : String → String) (endpoint : String) (op : Operation)
    (alwaysIncludeQuery : Bool) (net : Net)
    (hpath : (hasDocumentId op && !alwaysIncludeQuery) = false)
    (hfail1 : net (v1GetRequest hashHex endpoint op) = Except.error ())
    (hfail2 : net (apqGetRequest hashHex endpoint op alwaysIncludeQuery)
      = Except.error ()) :
    executeRequest hashHex endpoint op false alwaysIncludeQuery DocType.query net
      = ([v1GetRequest hashHex endpoint op,
          v1FallbackRequest hashHex endpoint op alwaysIncludeQuery],
         net (v1FallbackRequest hashHex endpoint op alwaysIncludeQuery))
    ∧ apqQuery hashHex endpoint op alwaysIncludeQuery net
      = ([apqGetRequest hashHex endpoint op alwaysIncludeQuery],
         Except.error ()) := by
  constructor
  · unfold executeRequest
    rw [if_neg (by simp), if_neg (by simp)]
    simp only [hpath]
    rw [if_neg (by simp), hfail1]
    simp [executePost, v1FallbackRequest]
  · unfold apqQuery
    rw [hfail2]

/-- A transport that throws on GET and succeeds on POST. -/
def netThrowOnGet : Net := fun r =>
  match r.method with
  | Method.get => Except.error ()
  | Method.post => Except.ok ⟨200, "OK", Except.ok (Json.obj [("data", Json.null)])⟩

/-- **C3 counterexample**: under the `apqQuery` strategy revision (the
one dispatched by the server's strategy selector), a thrown transport
error on the APQ GET is surfaced to the caller directly — the trace stops
at the single GET, no fallback POST is issued, and the result is the
transport error, against the claim that such a failure is never surfaced
and the fallback is still attempted. -/
theorem apq_get_transport_error_propagates_counterexample :
    apqQuery (fun _ => "h") "http://x/graphql"
      (createOperation "query Q { x }" none none) false netThrowOnGet
      = ([⟨Method.get, "http://x/graphql",
            [("op", Json.str "Q"), ("extensions", pqExtH)], none⟩],
         Except.error ())
    ∧ serverClientFetch (fun _ => "h") "http://x/graphql" "query Q { x }"
        none none false false netThrowOnGet
      = ([⟨Method.get, "http://x/graphql",
            [("op", Json.str "Q"), ("extensions", pqExtH)], none⟩],
         ClientResult.transportError) := ⟨rfl, rfl⟩

/-- Witness for the amended C3: with the same failing GET, the
`executeRequest` revision still issues the fallback POST and returns its
result, while `apqQuery` propagates the error. -/
theorem apq_get_transport_error_handling_witness :
    executeRequest (fun _ => "h") "http://x/graphql"
      (createOperation "query Q { x }" none none) false false DocType.query
      netThrowOnGet
      = ([v1GetRequest (fun _ => "h") "http://x/graphql"
            (createOperation "query Q { x }" none none),
          v1FallbackRequest (fun _ => "h") "http://x/graphql"
            (createOperation "query Q { x }" none none) false],
         netThrowOnGet (v1FallbackRequest (fun _ => "h") "http://x/graphql"
            (createOperation "query Q { x }" none none) false))
    ∧ apqQuery (fun _ => "h") "http://x/graphql"
        (createOperation "query Q { x }" none none) false netThrowOnGet
      = ([apqGetRequest (fun _ => "h") "http://x/graphql"
            (createOperation "query Q { x }" none none) false],
         Except.error ()) :=
  apq_get_transport_error_handling (fun _ => "h") "http://x/graphql"
    (createOperation "query Q { x }" none none) false netThrowOnGet
    (by decide) rfl rfl

/-- **C8** (confirmed). If the final response of whichever strategy ran
(after the fallback, if any) is non-2xx, `createServerClient.fetch`
raises `GraphQLClientError` carrying that response's status, status text
and the response itself; and an intermediate non-2xx on the APQ GET never
raises it — with a rejected GET and a 2xx JSON fallback POST the caller
receives the parsed fallback data, no error. -/
theorem final_non_ok_raises_client_error
    (hashHex : String → String) (endpoint document : String)
    (documentId : Option String) (vars : Option Json)
    (disablePersistedOperations alwaysIncludeQuery : Bool) (net : Net) :
    (∀ resp : HttpResponse,
      (executeStrategy hashHex endpoint (createOperation document documentId vars)
          disablePersistedOperations alwaysIncludeQuery (getDocumentType document)
          net).2 = Except.ok resp →
      respOk resp = false →
      (serverClientFetch hashHex endpoint document documentId vars
          disablePersistedOperations alwaysIncludeQuery net).2
        = ClientResult.clientError resp.status resp.statusText resp)
    ∧ (getDocumentType document = DocType.query →
       disablePersistedOperations = false →
       ∀ (respG respP : HttpResponse) (j : Json),
        net (apqGetRequest hashHex endpoint (createOperation document documentId vars)
            alwaysIncludeQuery) = Except.ok respG →
        respOk respG = false →
        net (apqFallbackRequest hashHex endpoint
            (createOperation document documentId vars) alwaysIncludeQuery)
          = Except.ok respP →
        respOk respP = true →
        respP.jsonBody = Except.ok j →
        (serverClientFetch hashHex endpoint document documentId vars
            disablePersistedOperations alwaysIncludeQuery net).2
          = ClientResult.success j) := by
  constructor
  · intro resp hfin hnotok
    show processResult (executeStrategy hashHex endpoint
        (createOperation document documentId vars) disablePersistedOperations
        alwaysIncludeQuery (getDocumentType document) net).2
      = ClientResult.clientError resp.status resp.statusText resp
    rw [hfin]
    simp [processResult, hnotok]
  · intro hq hdis respG respP j hget hGnotok hpost hPok hPbody
    subst hdis
    have hstrat : executeStrategy hashHex endpoint
        (createOperation document documentId vars) false alwaysIncludeQuery
        (getDocumentType document) net
        = apqQuery hashHex endpoint (createOperation document documentId vars)
            alwaysIncludeQuery net := by
      rw [hq]
      unfold executeStrategy
      rw [if_neg (by simp), if_neg (by simp)]
    have hearly : apqReturnEarly respG = false := by
      unfold apqReturnEarly
      rw [if_neg (by simp [hGnotok])]
    have happ : apqQuery hashHex endpoint (createOperation document documentId vars)
        alwaysIncludeQuery net
        = ([apqGetRequest hashHex endpoint (createOperation document documentId vars)
              alwaysIncludeQuery,
            apqFallbackRequest hashHex endpoint
              (createOperation document documentId vars) alwaysIncludeQuery],
           net (apqFallbackRequest hashHex endpoint
              (createOperation document documentId vars) alwaysIncludeQuery)) := by
      unfold apqQuery
      rw [hget]
      simp [hearly, apqPostFallback, executePost, apqFallbackRequest, apqFallbackBody]
    show processResult (executeStrategy hashHex endpoint
        (createOperation document documentId vars) false
        alwaysIncludeQuery (getDocumentType document) net).2
      = ClientResult.success j
    rw [hstrat, happ]
    show processResult (net (apqFallbackRequest hashHex endpoint
        (createOperation document documentId vars) alwaysIncludeQuery))
      = ClientResult.success j
    rw [hpost]
    simp [processResult, hPok, hPbody]

/-- A transport answering every request with HTTP 401 and a non-JSON
body (end-to-end scenario D). -/
def netAlways401 : Net := fun _ => Except.ok ⟨401, "Unauthorized", Except.error ()⟩

/-- A transport rejecting the GET with 404 and answering the POST with
200 JSON data. -/
def netGet404PostOk : Net := fun r =>
  match r.method with
  | Method.get => Except.ok ⟨404, "Not Found", Except.error ()⟩
  | Method.post => Except.ok ⟨200, "OK", Except.ok (Json.obj [("data", Json.null)])⟩

/-- Witness for C8: a 401 on the single standard POST surfaces as the
client error with status 401; a 404 on the APQ GET with a 200 JSON
fallback POST yields the parsed data and no error. -/
theorem final_non_ok_raises_client_error_witness :
    (serverClientFetch (fun _ => "h") "http://x/graphql" "query Q { x }"
        none none true false netAlways401).2
      = ClientResult.clientError 401 "Unauthorized"
          ⟨401, "Unauthorized", Except.error ()⟩
    ∧ (serverClientFetch (fun _ => "h") "http://x/graphql" "query Q { x }"
        none none false false netGet404PostOk).2
      = ClientResult.success (Json.obj [("data", Json.null)]) :=
  ⟨(final_non_ok_raises_client_error (fun _ => "h") "http://x/graphql"
      "query Q { x }" none none true false netAlways401).1
      ⟨401, "Unauthorized", Except.error ()⟩ rfl rfl,
   (final_non_ok_raises_client_error (fun _ => "h") "http://x/graphql"
      "query Q { x }" none none false false netGet404PostOk).2
      (by decide) rfl ⟨404, "Not Found", Except.error ()⟩
      ⟨200, "OK", Except.ok (Json.obj [("data", Json.null)])⟩
      (Json.obj [("data", Json.null)]) rfl rfl rfl rfl rfl⟩
